import Mathlib

/-!
Verification of the injaaz-form-system site-visit pipeline.

The definitions below are a shallow embedding of the Python source of the
repository (module_site_visit/routes.py, utils/pdf_generator.py,
utils/excel_writer.py, utils/tasks.py, utils.py, s3_utils_config.py).
Stateful code is modelled by explicit state passing; the ephemeral
submission state store (one JSON scratch file per submission id in the
temp directory) is modelled as an association list from ids to records;
fallible external calls (filesystem, S3, Redis, xlsxwriter, reportlab)
are modelled by explicit outcome parameters.
-/

/-- One entry of the photo_urls list sent by the client to
/api/submit/update-photos and stored in the submission record
(routes.py lines 271 to 274 and 311 to 316). photo_url is optional
because url_data.get returns None when the field is absent. -/
structure PhotoUrlEntry where
  item_index : Nat
  photo_index : Nat
  photo_url : Option String
deriving DecidableEq, Repr, Inhabited

/-- Visit metadata fields used by the pipeline (routes.py submit_metadata). -/
structure VisitInfo where
  building_name : Option String
  email : Option String
  tech_signature_url : Option String
  opMan_signature_url : Option String
deriving DecidableEq, Repr, Inhabited

/-- One finding item as submitted in phase 1 (report_items in routes.py):
textual fields plus the declared expected photo count. -/
structure RawItem where
  asset : String
  description : String
  photo_count : Nat
deriving DecidableEq, Repr, Inhabited

/-- The record persisted by save_report_state in routes.py: visit_info,
report_items and the incrementally reported photo_urls list. -/
structure ReportRecord where
  visit_info : VisitInfo
  report_items : List RawItem
  photo_urls : List PhotoUrlEntry
deriving DecidableEq, Repr, Inhabited

/-- The temp-directory scratch space holding one JSON file per submission id
(routes.py save_report_state and get_report_state). Modelled as an
association list; there is at most one file per id, which storeErase and
storePut maintain by removing every binding for the id. -/
def StateStore : Type := List (String × ReportRecord)

/-- Lookup of the scratch file for an id (os.path.exists plus json.load). -/
def storeGet? : StateStore → String → Option ReportRecord
  | [], _ => none
  | (k, v) :: rest, id => if k = id then some v else storeGet? rest id

/-- Removal of the scratch file for an id (os.remove in routes.py). -/
def storeErase : StateStore → String → StateStore
  | [], _ => []
  | (k, v) :: rest, id =>
      if k = id then storeErase rest id else (k, v) :: storeErase rest id

/-- save_report_state in routes.py (lines 144 to 147): writing the JSON file
overwrites any previous file for the same id. -/
def save_report_state (s : StateStore) (id : String) (r : ReportRecord) : StateStore :=
  (id, r) :: storeErase s id

/-- get_report_state in routes.py (lines 149 to 160): if the scratch file is
absent return None; otherwise read the record and, in the finally block,
remove the file. The call returns the observed record together with the
state left behind. -/
def get_report_state (s : StateStore) (id : String) : Option ReportRecord × StateStore :=
  match storeGet? s id with
  | none => (none, s)
  | some r => (some r, storeErase s id)

/-- Observations made by a sequence of n consecutive reads of the same id,
each read performed exactly as get_report_state does (the read that
finalize_report and update_photos perform). -/
def finalizeReads : StateStore → String → Nat → List (Option ReportRecord)
  | _, _, 0 => []
  | s, id, n + 1 =>
      let out := get_report_state s id
      out.1 :: finalizeReads out.2 id n

theorem storeGet?_storeErase_self (s : StateStore) (id : String) :
    storeGet? (storeErase s id) id = none := by
  induction s with
  | nil => rfl
  | cons p rest ih =>
      by_cases h : p.1 = id
      · simpa [storeErase, h] using ih
      · simp [storeErase, h, storeGet?, ih]

theorem storeGet?_save_self (s : StateStore) (id : String) (r : ReportRecord) :
    storeGet? (save_report_state s id r) id = some r := by
  simp [save_report_state, storeGet?]

theorem finalizeReads_of_absent (s : StateStore) (id : String) (n : Nat)
    (h : storeGet? s id = none) :
    finalizeReads s id n = List.replicate n none := by
  induction n with
  | zero => rfl
  | succ n ih => simp [finalizeReads, get_report_state, h, ih, List.replicate]

/-- C1: for every submission id, exactly one read observes the stored record
and all subsequent reads of the same id observe "not found": the read
performed by finalize (get_report_state in routes.py) removes the scratch
file in its finally block, so once a read of an id succeeds every later
read of that id returns None. -/
theorem finalize_single_read (s : StateStore) (id : String) (r : ReportRecord)
    (h : storeGet? s id = some r) (n : Nat) :
    finalizeReads s id (n + 1) = some r :: List.replicate n none := by
  have h2 : get_report_state s id = (some r, storeErase s id) := by
    simp [get_report_state, h]
  have h3 : storeGet? (storeErase s id) id = none := storeGet?_storeErase_self s id
  simp [finalizeReads, h2, finalizeReads_of_absent _ _ _ h3]

/-- Witness for C1 at a concrete store with one stored record and three reads. -/
theorem finalize_single_read_witness :
    finalizeReads [("report-1", default)] "report-1" 3 =
      some (default : ReportRecord) :: List.replicate 2 none :=
  finalize_single_read [("report-1", default)] "report-1" default rfl 2

/-- Response of the update-photos endpoint as the client observes it
(routes.py update_photos, lines 260 to 279). -/
inductive UpdateResp
  | notFound
  | updateFailed
  | updated
deriving DecidableEq, Repr

/-- update_photos in routes.py: it first performs the delete-on-read fetch
(get_report_state), answers "not found" if the record is absent, then
parses the request body; a parse failure returns an error response
without re-saving, while success stores the body list as the new
photo_urls, wholesale. body = none models a request whose JSON cannot
be parsed (request.json raising inside the try block). -/
def update_photos (s : StateStore) (id : String) (body : Option (List PhotoUrlEntry)) :
    UpdateResp × StateStore :=
  match get_report_state s id with
  | (none, s2) => (UpdateResp.notFound, s2)
  | (some r, s2) =>
      match body with
      | none => (UpdateResp.updateFailed, s2)
      | some urls => (UpdateResp.updated, save_report_state s2 id { r with photo_urls := urls })

/-- C10: update-photos is not atomic. Its initial read deletes the stored
record, so when the request body fails to parse the error response leaves
the record already removed: the store no longer binds the id, and every
subsequent update-photos or finalize read of that id observes "not found". -/
theorem update_photos_not_atomic (s : StateStore) (id : String) (r : ReportRecord)
    (h : storeGet? s id = some r) :
    (update_photos s id none).1 = UpdateResp.updateFailed
    ∧ storeGet? (update_photos s id none).2 id = none
    ∧ (get_report_state (update_photos s id none).2 id).1 = none
    ∧ (update_photos (update_photos s id none).2 id (some [])).1 = UpdateResp.notFound := by
  have h3 : storeGet? (storeErase s id) id = none := storeGet?_storeErase_self s id
  refine ⟨?_, ?_, ?_, ?_⟩ <;>
    simp [update_photos, get_report_state, h, h3]

/-- Witness for C10 at a concrete one-record store. -/
theorem update_photos_not_atomic_witness :
    (update_photos [("report-1", default)] "report-1" none).1 = UpdateResp.updateFailed
    ∧ storeGet? (update_photos [("report-1", default)] "report-1" none).2 "report-1" = none
    ∧ (get_report_state (update_photos [("report-1", default)] "report-1" none).2 "report-1").1 = none
    ∧ (update_photos (update_photos [("report-1", default)] "report-1" none).2 "report-1" (some [])).1
        = UpdateResp.notFound :=
  update_photos_not_atomic [("report-1", default)] "report-1" default rfl

/-- Sequence of successful-body update-photos calls for one id, applied in
order, each threading the state left by the previous one. -/
def runUpdates (id : String) : StateStore → List (List PhotoUrlEntry) → StateStore
  | s, [] => s
  | s, b :: bs => runUpdates id (update_photos s id (some b)).2 bs

/-- The url_map dictionary built by finalize_report (routes.py lines 310 to
316): one binding per (item_index, photo_index) key, later entries of the
stored list overwriting earlier ones, the value being the optional
photo_url field. -/
def UrlMap : Type := List ((Nat × Nat) × Option String)

/-- Assignment url_map(key) = value: overwrite the binding if the key is
present, append it otherwise. -/
def urlMapInsert : UrlMap → Nat × Nat → Option String → UrlMap
  | [], k, v => [(k, v)]
  | (k2, v2) :: rest, k, v =>
      if k2 = k then (k, v) :: rest else (k2, v2) :: urlMapInsert rest k v

/-- Dictionary lookup url_map.get(key), distinguishing an absent key (none)
from a key bound to a null photo_url (some none). -/
def urlMapGet? : UrlMap → Nat × Nat → Option (Option String)
  | [], _ => none
  | (k2, v) :: rest, k => if k2 = k then some v else urlMapGet? rest k

/-- The loop of finalize_report over final_photo_urls building url_map. -/
def buildUrlMap (entries : List PhotoUrlEntry) : UrlMap :=
  entries.foldl (fun m e => urlMapInsert m (e.item_index, e.photo_index) e.photo_url) []

/-- Python truthiness of url_map.get(key): None and the empty string are
falsy (the if photo_url test in finalize_report). -/
def pyTruthy : Option String → Bool
  | none => false
  | some s => s != ""

/-- url_map.get(key): Python dict get returns None when the key is absent,
which the code cannot distinguish from a stored null. -/
def lookupUrl (m : UrlMap) (k : Nat × Nat) : Option String :=
  match urlMapGet? m k with
  | some v => v
  | none => none

/-- The reference finalize resolves for a key from the stored photo_urls
list: the looked-up url when it is truthy, nothing otherwise. -/
def resolveRef (entries : List PhotoUrlEntry) (k : Nat × Nat) : Option String :=
  let u := lookupUrl (buildUrlMap entries) k
  if pyTruthy u then u else none

theorem urlMapGet?_urlMapInsert (m : UrlMap) (k k2 : Nat × Nat) (v : Option String) :
    urlMapGet? (urlMapInsert m k v) k2 =
      if k = k2 then some v else urlMapGet? m k2 := by
  induction m with
  | nil => simp [urlMapInsert, urlMapGet?]
  | cons p rest ih =>
      obtain ⟨a, w⟩ := p
      by_cases h : a = k
      · subst h
        by_cases h2 : a = k2
        · subst h2; simp [urlMapInsert, urlMapGet?]
        · simp [urlMapInsert, urlMapGet?, h2]
      · by_cases h2 : a = k2
        · subst h2
          have h3 : ¬ k = a := fun e => h e.symm
          simp [urlMapInsert, urlMapGet?, h, h3]
        · simp [urlMapInsert, urlMapGet?, h, h2, ih]

theorem buildUrlMap_append_last (l : List PhotoUrlEntry) (e : PhotoUrlEntry) (k : Nat × Nat) :
    urlMapGet? (buildUrlMap (l ++ [e])) k =
      if (e.item_index, e.photo_index) = k then some e.photo_url
      else urlMapGet? (buildUrlMap l) k := by
  simp [buildUrlMap, List.foldl_append, urlMapGet?_urlMapInsert]

theorem runUpdates_append_last (id : String) (bs : List (List PhotoUrlEntry))
    (b : List PhotoUrlEntry) :
    ∀ (s : StateStore) (r : ReportRecord), storeGet? s id = some r →
      (get_report_state (runUpdates id s (bs ++ [b])) id).1 =
        some { r with photo_urls := b } := by
  induction bs with
  | nil =>
      intro s r h
      have step : (update_photos s id (some b)).2
          = save_report_state (storeErase s id) id { r with photo_urls := b } := by
        simp [update_photos, get_report_state, h]
      have h2 : storeGet? (update_photos s id (some b)).2 id
          = some { r with photo_urls := b } := by
        rw [step]; exact storeGet?_save_self _ _ _
      simp [runUpdates, get_report_state, h2]
  | cons b0 bs ih =>
      intro s r h
      have step : (update_photos s id (some b0)).2
          = save_report_state (storeErase s id) id { r with photo_urls := b0 } := by
        simp [update_photos, get_report_state, h]
      have h2 : storeGet? (update_photos s id (some b0)).2 id
          = some { r with photo_urls := b0 } := by
        rw [step]; exact storeGet?_save_self _ _ _
      have h3 := ih (update_photos s id (some b0)).2 { r with photo_urls := b0 } h2
      simpa [runUpdates] using h3

/-- C2 counterexample: the first update-photos call supplies key (0, 0) with
url a, the second call supplies only key (1, 0) and never replaces key
(0, 0); yet at finalize the stored list is exactly the second call body,
key (0, 0) resolves to nothing rather than to url a, and only key (1, 0)
resolves. This refutes the claimed per-key merge across calls. -/
theorem update_photos_merge_counterexample :
    (get_report_state
        (runUpdates "report-1"
          [("report-1", { visit_info := default, report_items := [], photo_urls := [] })]
          [[{ item_index := 0, photo_index := 0, photo_url := some "https://a" }],
           [{ item_index := 1, photo_index := 0, photo_url := some "https://b" }]])
        "report-1").1.map (fun r => r.photo_urls) =
      some [{ item_index := 1, photo_index := 0, photo_url := some "https://b" }]
    ∧ (get_report_state
        (runUpdates "report-1"
          [("report-1", { visit_info := default, report_items := [], photo_urls := [] })]
          [[{ item_index := 0, photo_index := 0, photo_url := some "https://a" }],
           [{ item_index := 1, photo_index := 0, photo_url := some "https://b" }]])
        "report-1").1.map (fun r => resolveRef r.photo_urls (0, 0)) = some none
    ∧ (get_report_state
        (runUpdates "report-1"
          [("report-1", { visit_info := default, report_items := [], photo_urls := [] })]
          [[{ item_index := 0, photo_index := 0, photo_url := some "https://a" }],
           [{ item_index := 1, photo_index := 0, photo_url := some "https://b" }]])
        "report-1").1.map (fun r => resolveRef r.photo_urls (0, 0)) ≠
          some (some "https://a") := by
  refine ⟨by rfl, by rfl, by decide⟩

/-- C2 amended: update-photos calls are not merged per key across calls;
each call replaces the stored photo_urls list wholesale, so the record
finalize reads carries exactly the last call body (with the other record
fields untouched), and per-key merging happens only within that single
final list, where the last entry carrying a key wins. -/
theorem update_photos_replace_then_last_wins (id : String)
    (bs : List (List PhotoUrlEntry)) (b : List PhotoUrlEntry)
    (s : StateStore) (r : ReportRecord) (h : storeGet? s id = some r) :
    (get_report_state (runUpdates id s (bs ++ [b])) id).1 =
        some { r with photo_urls := b }
    ∧ ∀ (l : List PhotoUrlEntry) (e : PhotoUrlEntry) (k : Nat × Nat),
        urlMapGet? (buildUrlMap (l ++ [e])) k =
          if (e.item_index, e.photo_index) = k then some e.photo_url
          else urlMapGet? (buildUrlMap l) k :=
  ⟨runUpdates_append_last id bs b s r h, fun l e k => buildUrlMap_append_last l e k⟩

/-- Witness for the amended C2 at a concrete two-call sequence. -/
theorem update_photos_replace_then_last_wins_witness :
    (get_report_state
        (runUpdates "report-1" [("report-1", (default : ReportRecord))]
          ([[{ item_index := 0, photo_index := 0, photo_url := some "https://a" }]] ++
            [[{ item_index := 1, photo_index := 0, photo_url := some "https://b" }]]))
        "report-1").1 =
      some { (default : ReportRecord) with
              photo_urls := [{ item_index := 1, photo_index := 0, photo_url := some "https://b" }] } :=
  (update_photos_replace_then_last_wins "report-1"
    [[{ item_index := 0, photo_index := 0, photo_url := some "https://a" }]]
    [{ item_index := 1, photo_index := 0, photo_url := some "https://b" }]
    [("report-1", default)] default rfl).1

/-- The image_urls list finalize_report attaches to item i (routes.py lines
318 to 328): for photo_index in range(photo_count), look the key up in
url_map and append the url exactly when it is truthy. -/
def imageUrls (m : UrlMap) (i n : Nat) : List String :=
  (List.range n).filterMap (fun j =>
    let u := lookupUrl m (i, j)
    if pyTruthy u then u else none)

/-- The warnings finalize_report logs for item i, one per photo index whose
key has no truthy url (routes.py line 326). -/
def missingPhotoWarnings (m : UrlMap) (i n : Nat) : List Nat :=
  (List.range n).filter (fun j => !pyTruthy (lookupUrl m (i, j)))

theorem imageUrls_succ (m : UrlMap) (i n : Nat) :
    imageUrls m i (n + 1) =
      imageUrls m i n ++
        (if pyTruthy (lookupUrl m (i, n)) then [(lookupUrl m (i, n)).getD ""] else []) := by
  by_cases h : pyTruthy (lookupUrl m (i, n))
  · rcases h2 : lookupUrl m (i, n) with _ | u
    · rw [h2] at h; simp [pyTruthy] at h
    · have h3 : pyTruthy (some u) = true := h2 ▸ h
      simp [imageUrls, List.range_succ, List.filterMap_cons, h, h2, h3]
  · simp [imageUrls, List.range_succ, h]

theorem missingPhotoWarnings_succ (m : UrlMap) (i n : Nat) :
    missingPhotoWarnings m i (n + 1) =
      missingPhotoWarnings m i n ++
        (if pyTruthy (lookupUrl m (i, n)) then [] else [n]) := by
  by_cases h : pyTruthy (lookupUrl m (i, n)) <;>
    simp [missingPhotoWarnings, List.range_succ, h]

/-- C5: finalize attaches to item i exactly the references reported for keys
(i, 0) through (i, n - 1). When every such key carries a truthy url u j,
item i carries precisely the n references u 0 through u n-1 in photo-index
order (no slot missing or duplicated) and no warning is logged; in
general the number of attached references plus the number of logged
missing-photo warnings equals the declared photo_count, and the warnings
are exactly the missing photo indices. -/
theorem finalize_photo_count_round_trip (m : UrlMap) (i n : Nat) (u : Nat → String) :
    ((∀ j, j < n → lookupUrl m (i, j) = some (u j) ∧ u j ≠ "") →
        imageUrls m i n = (List.range n).map u ∧ missingPhotoWarnings m i n = [])
    ∧ (imageUrls m i n).length + (missingPhotoWarnings m i n).length = n
    ∧ missingPhotoWarnings m i n =
        (List.range n).filter (fun j => !pyTruthy (lookupUrl m (i, j))) := by
  refine ⟨?_, ?_, rfl⟩
  · intro h
    induction n with
    | zero => simp [imageUrls, missingPhotoWarnings]
    | succ n ih =>
        have hn := h n (Nat.lt_succ_self n)
        have htr : pyTruthy (lookupUrl m (i, n)) = true := by
          simp [pyTruthy, hn.1, hn.2]
        have ih2 := ih (fun j hj => h j (Nat.lt_succ_of_lt hj))
        rw [imageUrls_succ, missingPhotoWarnings_succ, htr, ih2.1, ih2.2]
        simp [List.range_succ, hn.1]
  · induction n with
    | zero => simp [imageUrls, missingPhotoWarnings]
    | succ n ih =>
        rw [imageUrls_succ, missingPhotoWarnings_succ]
        by_cases h : pyTruthy (lookupUrl m (i, n)) <;>
          simp [h, List.length_append] <;> omega

/-- Witness for C5: two reported photos for item 0 with photo_count 2, and a
map with a missing key for item 1. -/
theorem finalize_photo_count_round_trip_witness :
    (imageUrls
        (buildUrlMap
          [{ item_index := 0, photo_index := 0, photo_url := some "https://a" },
           { item_index := 0, photo_index := 1, photo_url := some "https://b" }])
        0 2 = (List.range 2).map (fun j => if j = 0 then "https://a" else "https://b")
      ∧ missingPhotoWarnings
          (buildUrlMap
            [{ item_index := 0, photo_index := 0, photo_url := some "https://a" },
             { item_index := 0, photo_index := 1, photo_url := some "https://b" }])
          0 2 = []) := by
  have h := finalize_photo_count_round_trip
    (buildUrlMap
      [{ item_index := 0, photo_index := 0, photo_url := some "https://a" },
       { item_index := 0, photo_index := 1, photo_url := some "https://b" }])
    0 2 (fun j => if j = 0 then "https://a" else "https://b")
  exact h.1 (by decide)

/-- One finding item as the PDF generator consumes it (pdf_generator.py):
textual fields plus the list of local image paths. -/
structure ReportItem where
  asset : String
  system : String
  description : String
  quantity : String
  brand : String
  comments : String
  image_paths : List String
deriving DecidableEq, Repr, Inhabited

/-- A flowable produced for an image slot: either a loaded image or the
textual placeholder paragraph get_image_from_path falls back to. -/
inductive ImgElem
  | image (path : String)
  | placeholderElem (label : String)
deriving DecidableEq, Repr

/-- get_image_from_path in pdf_generator.py (lines 94 to 117): a missing or
empty path yields the caller-supplied placeholder text; an existing path
whose image fails to load in reportlab yields the Image Load Error
placeholder; otherwise the image element. fexists models os.path.exists
and loadOk models the reportlab Image constructor succeeding. -/
def get_image_from_path (fexists loadOk : String → Bool) (path ph : String) : ImgElem :=
  if path = "" ∨ fexists path = false then ImgElem.placeholderElem ph
  else if loadOk path then ImgElem.image path
  else ImgElem.placeholderElem "Image Load Error"

/-- Layout blocks of the generated story, abstracting the reportlab
flowables the claims are about: section headings, spacers, the per-item
text table of section 2, the per-item photo table of section 3, the
additional-photos grid, and the no-items fallback note. -/
inductive Block
  | sectionHeading (title : String)
  | spacerBlock
  | itemDetailText (index : Nat) (it : ReportItem)
  | photoItemTable (index : Nat) (img : ImgElem) (it : ReportItem)
  | extraPhotoGrid (imgs : List ImgElem)
  | noPhotoItemsNote
deriving DecidableEq, Repr

/-- create_extra_photo_grid in pdf_generator.py (lines 190 to 256): nothing
for an empty list, otherwise a titled grid of image elements where each
missing extra photo degrades to an Image Missing placeholder. -/
def create_extra_photo_grid (fexists loadOk : String → Bool) (paths : List String) :
    List Block :=
  if paths = [] then []
  else
    [Block.spacerBlock, Block.sectionHeading "Additional Photos", Block.spacerBlock,
     Block.extraPhotoGrid
       (paths.map (fun p => get_image_from_path fexists loadOk p "Image Missing"))]

/-- The enumerated loop body of create_report_photo_items_table (lines 271
to 345): an item whose image_paths list is empty, or whose first path does
not exist, is skipped with continue; otherwise a photo table for the first
image, the extra-photos grid for the rest, and a spacer. -/
def photoItemsBody (fexists loadOk : String → Bool) : Nat → List ReportItem → List Block
  | _, [] => []
  | i, it :: rest =>
      match it.image_paths with
      | [] => photoItemsBody fexists loadOk (i + 1) rest
      | p :: more =>
          if fexists p = false then photoItemsBody fexists loadOk (i + 1) rest
          else
            Block.photoItemTable i (get_image_from_path fexists loadOk p "No Image") it
              :: (create_extra_photo_grid fexists loadOk more
                  ++ Block.spacerBlock :: photoItemsBody fexists loadOk (i + 1) rest)

/-- create_report_photo_items_table in pdf_generator.py: heading, spacer, the
per-item bodies, the fallback note when the story list is empty (dead in
practice, the heading is always there), and a final spacer. -/
def create_report_photo_items_table (fexists loadOk : String → Bool)
    (items : List ReportItem) : List Block :=
  let story := Block.sectionHeading "3. Report photo items" :: Block.spacerBlock
      :: photoItemsBody fexists loadOk 0 items
  let story2 := if story = [] then story ++ [Block.noPhotoItemsNote] else story
  story2 ++ [Block.spacerBlock]

/-- The enumerated loop of section 2 of build_report_story (lines 442 to
466): one text block and one spacer per item, for every item. -/
def itemsBreakdownBody : Nat → List ReportItem → List Block
  | _, [] => []
  | i, it :: rest =>
      Block.itemDetailText i it :: Block.spacerBlock :: itemsBreakdownBody (i + 1) rest

/-- Section 2 of build_report_story: heading, spacer, all item bodies, and
the trailing spacer of line 468. -/
def report_items_breakdown (items : List ReportItem) : List Block :=
  Block.sectionHeading "2. Report Items (Detailed Breakdown)" :: Block.spacerBlock
    :: (itemsBreakdownBody 0 items ++ [Block.spacerBlock])

/-- build_report_story in pdf_generator.py (lines 373 to 479), keeping the
blocks the claims are about: title and visit details, section 2, section 3
and the signature section marker. -/
def build_report_story (fexists loadOk : String → Bool) (vi : VisitInfo)
    (items : List ReportItem) : List Block :=
  Block.sectionHeading ("Site Visit Report - " ++ vi.building_name.getD "N/A")
    :: Block.sectionHeading "1. Visit and Contact Details" :: Block.spacerBlock
    :: (report_items_breakdown items
        ++ create_report_photo_items_table fexists loadOk items
        ++ [Block.sectionHeading "4. Signatures"])

/-- Indices of the per-item text blocks appearing in a story, in order. -/
def itemTextIndices : List Block → List Nat
  | [] => []
  | Block.itemDetailText i _ :: rest => i :: itemTextIndices rest
  | Block.sectionHeading _ :: rest => itemTextIndices rest
  | Block.spacerBlock :: rest => itemTextIndices rest
  | Block.photoItemTable _ _ _ :: rest => itemTextIndices rest
  | Block.extraPhotoGrid _ :: rest => itemTextIndices rest
  | Block.noPhotoItemsNote :: rest => itemTextIndices rest

/-- Indices of the per-item photo tables appearing in a story, in order. -/
def photoTableIndices : List Block → List Nat
  | [] => []
  | Block.photoItemTable i _ _ :: rest => i :: photoTableIndices rest
  | Block.sectionHeading _ :: rest => photoTableIndices rest
  | Block.spacerBlock :: rest => photoTableIndices rest
  | Block.itemDetailText _ _ :: rest => photoTableIndices rest
  | Block.extraPhotoGrid _ :: rest => photoTableIndices rest
  | Block.noPhotoItemsNote :: rest => photoTableIndices rest

/-- Whether a block carries a textual image placeholder. -/
def blockHasPlaceholder : Block → Bool
  | Block.photoItemTable _ (ImgElem.placeholderElem _) _ => true
  | Block.extraPhotoGrid imgs =>
      imgs.any (fun e =>
        match e with
        | ImgElem.placeholderElem _ => true
        | ImgElem.image _ => false)
  | _ => false

/-- An item contributes a photo table exactly when its image_paths list is
nonempty and its first path exists (the continue condition of line 277,
negated). Stated from the amended claim for comparison with the source
loop. -/
def hasRenderablePhoto (fexists : String → Bool) (it : ReportItem) : Bool :=
  match it.image_paths with
  | [] => false
  | p :: _ => fexists p

/-- Indices the amended claim says the photo-items section shows, stated
from the amended claim words. -/
def renderablePhotoIndices (fexists : String → Bool) : Nat → List ReportItem → List Nat
  | _, [] => []
  | k, it :: rest =>
      if hasRenderablePhoto fexists it then
        k :: renderablePhotoIndices fexists (k + 1) rest
      else renderablePhotoIndices fexists (k + 1) rest

theorem itemTextIndices_append (a b : List Block) :
    itemTextIndices (a ++ b) = itemTextIndices a ++ itemTextIndices b := by
  induction a with
  | nil => rfl
  | cons blk rest ih => cases blk <;> simp [itemTextIndices, ih]

theorem photoTableIndices_append (a b : List Block) :
    photoTableIndices (a ++ b) = photoTableIndices a ++ photoTableIndices b := by
  induction a with
  | nil => rfl
  | cons blk rest ih => cases blk <;> simp [photoTableIndices, ih]

theorem itemTextIndices_extra_grid (fexists loadOk : String → Bool) (ps : List String) :
    itemTextIndices (create_extra_photo_grid fexists loadOk ps) = [] := by
  by_cases h : ps = [] <;> simp [create_extra_photo_grid, h, itemTextIndices]

theorem photoTableIndices_extra_grid (fexists loadOk : String → Bool) (ps : List String) :
    photoTableIndices (create_extra_photo_grid fexists loadOk ps) = [] := by
  by_cases h : ps = [] <;> simp [create_extra_photo_grid, h, photoTableIndices]

theorem itemTextIndices_breakdown_body (items : List ReportItem) :
    ∀ k, itemTextIndices (itemsBreakdownBody k items) = List.range' k items.length := by
  induction items with
  | nil => intro k; rfl
  | cons it rest ih =>
      intro k
      simp [itemsBreakdownBody, itemTextIndices, ih, List.range'_succ]

theorem photoTableIndices_breakdown_body (items : List ReportItem) :
    ∀ k, photoTableIndices (itemsBreakdownBody k items) = [] := by
  induction items with
  | nil => intro k; rfl
  | cons it rest ih => intro k; simp [itemsBreakdownBody, photoTableIndices, ih]

theorem itemTextIndices_photo_body (fexists loadOk : String → Bool)
    (items : List ReportItem) :
    ∀ k, itemTextIndices (photoItemsBody fexists loadOk k items) = [] := by
  induction items with
  | nil => intro k; rfl
  | cons it rest ih =>
      intro k
      rcases hp : it.image_paths with _ | ⟨p, more⟩
      · simp [photoItemsBody, hp, ih]
      · by_cases hx : fexists p = false
        · simp [photoItemsBody, hp, hx, ih]
        · simp [photoItemsBody, hp, hx, itemTextIndices, itemTextIndices_append,
            itemTextIndices_extra_grid, ih]

theorem photoTableIndices_photo_body (fexists loadOk : String → Bool)
    (items : List ReportItem) :
    ∀ k, photoTableIndices (photoItemsBody fexists loadOk k items) =
      renderablePhotoIndices fexists k items := by
  induction items with
  | nil => intro k; rfl
  | cons it rest ih =>
      intro k
      rcases hp : it.image_paths with _ | ⟨p, more⟩
      · simp [photoItemsBody, hp, ih, renderablePhotoIndices, hasRenderablePhoto]
      · by_cases hx : fexists p = false
        · simp [photoItemsBody, hp, hx, ih, renderablePhotoIndices, hasRenderablePhoto]
        · simp [photoItemsBody, hp, hx, photoTableIndices, photoTableIndices_append,
            photoTableIndices_extra_grid, ih, renderablePhotoIndices, hasRenderablePhoto]

/-- C3 counterexample: a single item whose sole photo reference does not
exist. The claim says the rendered document shows a textual placeholder
for that item; in the code the continue on line 277 of pdf_generator.py
skips the item in the photo-items section instead, so the whole rendered
story contains no placeholder element at all and no photo table for the
item. -/
theorem photo_items_no_placeholder_counterexample :
    (build_report_story (fun _ => false) (fun _ => true) default
        [{ asset := "A", system := "S", description := "D", quantity := "1",
           brand := "B", comments := "C", image_paths := ["https://broken"] }]).all
        (fun b => !blockHasPlaceholder b) = true
    ∧ photoTableIndices
        (build_report_story (fun _ => false) (fun _ => true) default
          [{ asset := "A", system := "S", description := "D", quantity := "1",
             brand := "B", comments := "C", image_paths := ["https://broken"] }]) = [] := by
  exact ⟨rfl, rfl⟩

/-- C3 corrected: the detailed-breakdown section always renders one complete
textual block per item, for all N items, zero-photo items included (they
are never skipped there); but the photo-items section renders a photo
table exactly for the items whose path list is nonempty and whose first
photo file exists: an item whose sole reference is unreachable is
silently dropped from that section rather than shown with a placeholder. -/
theorem pdf_item_sections_spec (fexists loadOk : String → Bool) (vi : VisitInfo)
    (items : List ReportItem) :
    itemTextIndices (build_report_story fexists loadOk vi items) =
        List.range items.length
    ∧ photoTableIndices (build_report_story fexists loadOk vi items) =
        renderablePhotoIndices fexists 0 items := by
  constructor
  · simp [build_report_story, itemTextIndices, itemTextIndices_append,
      report_items_breakdown, itemTextIndices_breakdown_body,
      create_report_photo_items_table, itemTextIndices_photo_body, List.range_eq_range']
  · simp [build_report_story, photoTableIndices, photoTableIndices_append,
      report_items_breakdown, photoTableIndices_breakdown_body,
      create_report_photo_items_table, photoTableIndices_photo_body]

/-- Result of resize_image_for_pdf in pdf_generator.py (lines 41 to 83):
the pixel dimensions of the saved image and whether the Lanczos
resampling branch ran. -/
structure ResizeOutcome where
  width : Nat
  height : Nat
  resampledLanczos : Bool
deriving DecidableEq, Repr

/-- resize_image_for_pdf: compute the scale factor
min(max_dimension / width, max_dimension / height) in exact arithmetic
and, only when it is below 1, resize both dimensions by it (Python int()
truncation on nonnegative values is the floor), using the Lanczos
filter; otherwise keep the image as is. -/
def resize_image_for_pdf (w h maxDimension : Nat) : ResizeOutcome :=
  let r : ℚ := min ((maxDimension : ℚ) / (w : ℚ)) ((maxDimension : ℚ) / (h : ℚ))
  if r < 1 then
    { width := ⌊(w : ℚ) * r⌋₊, height := ⌊(h : ℚ) * r⌋₊, resampledLanczos := true }
  else
    { width := w, height := h, resampledLanczos := false }

theorem div_min_eq (m w h : Nat) (hw : 0 < w) (hh : 0 < h) :
    min ((m : ℚ) / (w : ℚ)) ((m : ℚ) / (h : ℚ)) = (m : ℚ) / ((max w h : Nat) : ℚ) := by
  have hw2 : (0 : ℚ) < w := by exact_mod_cast hw
  have hh2 : (0 : ℚ) < h := by exact_mod_cast hh
  have hm : (0 : ℚ) ≤ m := by positivity
  rcases le_total w h with hc | hc
  · have hc2 : (w : ℚ) ≤ h := by exact_mod_cast hc
    have hle : (m : ℚ) / (h : ℚ) ≤ (m : ℚ) / (w : ℚ) := by gcongr
    rw [min_eq_right hle, Nat.max_eq_right hc]
  · have hc2 : (h : ℚ) ≤ w := by exact_mod_cast hc
    have hle : (m : ℚ) / (w : ℚ) ≤ (m : ℚ) / (h : ℚ) := by gcongr
    rw [min_eq_left hle, Nat.max_eq_left hc]

theorem floor_mul_ratioQ (w m d : Nat) :
    ⌊(w : ℚ) * ((m : ℚ) / (d : ℚ))⌋₊ = w * m / d := by
  have he : (w : ℚ) * ((m : ℚ) / (d : ℚ)) = ((w * m : ℕ) : ℚ) / ((d : ℕ) : ℚ) := by
    push_cast; ring
  rw [he, Nat.floor_div_nat, Nat.floor_natCast]

/-- C8: the resizer never upsamples. When both dimensions are at most 800
the original dimensions are kept and no resampling happens; when either
dimension exceeds 800, both output dimensions are scaled by the common
factor 800 / max(w, h) (preserving the aspect ratio up to integer
truncation), both fit within 800, and the Lanczos branch is taken. -/
theorem resize_image_for_pdf_spec (w h : Nat) (hw : 0 < w) (hh : 0 < h) :
    ((w ≤ 800 ∧ h ≤ 800) →
        resize_image_for_pdf w h 800 = ⟨w, h, false⟩)
    ∧ (resize_image_for_pdf w h 800).width ≤ w
    ∧ (resize_image_for_pdf w h 800).height ≤ h
    ∧ ((800 < w ∨ 800 < h) →
        (resize_image_for_pdf w h 800).width = w * 800 / max w h
        ∧ (resize_image_for_pdf w h 800).height = h * 800 / max w h
        ∧ (resize_image_for_pdf w h 800).width ≤ 800
        ∧ (resize_image_for_pdf w h 800).height ≤ 800
        ∧ (resize_image_for_pdf w h 800).resampledLanczos = true) := by
  have hd : 0 < max w h := lt_of_lt_of_le hw (le_max_left w h)
  have hd2 : (0 : ℚ) < ((max w h : Nat) : ℚ) := by exact_mod_cast hd
  have hr := div_min_eq 800 w h hw hh
  have hcond : (((800 : Nat) : ℚ) / ((max w h : Nat) : ℚ) < 1) ↔ 800 < max w h := by
    rw [div_lt_one hd2]
    exact_mod_cast Iff.rfl
  by_cases hbig : 800 < max w h
  · have hlt2 : ((800 : Nat) : ℚ) / ((max w h : Nat) : ℚ) < 1 := hcond.mpr hbig
    have hres : resize_image_for_pdf w h 800 =
        { width := w * 800 / max w h, height := h * 800 / max w h,
          resampledLanczos := true } := by
      simp only [resize_image_for_pdf]
      rw [hr, if_pos hlt2, floor_mul_ratioQ, floor_mul_ratioQ]
    have hwmax : w ≤ max w h := le_max_left w h
    have hhmax : h ≤ max w h := le_max_right w h
    have h800 : 800 ≤ max w h := le_of_lt hbig
    have hwle : w * 800 / max w h ≤ w := by
      calc w * 800 / max w h ≤ w * max w h / max w h :=
            Nat.div_le_div_right (Nat.mul_le_mul_left w h800)
        _ = w := Nat.mul_div_cancel w hd
    have hhle : h * 800 / max w h ≤ h := by
      calc h * 800 / max w h ≤ h * max w h / max w h :=
            Nat.div_le_div_right (Nat.mul_le_mul_left h h800)
        _ = h := Nat.mul_div_cancel h hd
    have hw800 : w * 800 / max w h ≤ 800 := by
      calc w * 800 / max w h ≤ max w h * 800 / max w h :=
            Nat.div_le_div_right (Nat.mul_le_mul_right 800 hwmax)
        _ = 800 := Nat.mul_div_cancel_left 800 hd
    have hh800 : h * 800 / max w h ≤ 800 := by
      calc h * 800 / max w h ≤ max w h * 800 / max w h :=
            Nat.div_le_div_right (Nat.mul_le_mul_right 800 hhmax)
        _ = 800 := Nat.mul_div_cancel_left 800 hd
    refine ⟨?_, ?_, ?_, ?_⟩
    · intro hsmall
      exfalso
      have : max w h ≤ 800 := max_le hsmall.1 hsmall.2
      omega
    · rw [hres]; exact hwle
    · rw [hres]; exact hhle
    · intro _; rw [hres]; exact ⟨rfl, rfl, hw800, hh800, rfl⟩
  · have hge2 : ¬ (((800 : Nat) : ℚ) / ((max w h : Nat) : ℚ) < 1) :=
      fun hc => hbig (hcond.mp hc)
    have hres : resize_image_for_pdf w h 800 = ⟨w, h, false⟩ := by
      simp only [resize_image_for_pdf]
      rw [hr, if_neg hge2]
    refine ⟨fun _ => hres, by rw [hres], by rw [hres], ?_⟩
    · intro hcase
      exfalso
      rcases hcase with hc | hc
      · exact hbig (lt_of_lt_of_le hc (le_max_left w h))
      · exact hbig (lt_of_lt_of_le hc (le_max_right w h))

/-- Witness for C8 at a 1000 by 500 image and at a 640 by 480 image. -/
theorem resize_image_for_pdf_spec_witness :
    resize_image_for_pdf 640 480 800 = ⟨640, 480, false⟩
    ∧ (resize_image_for_pdf 1000 500 800).width = 1000 * 800 / 1000 := by
  constructor
  · exact (resize_image_for_pdf_spec 640 480 (by decide) (by decide)).1
      (by exact ⟨by decide, by decide⟩)
  · exact ((resize_image_for_pdf_spec 1000 500 (by decide) (by decide)).2.2.2
      (Or.inl (by decide))).1

/-- Required positional parameters of generate_visit_pdf as defined in
pdf_generator.py line 481; all four have no default. -/
def generate_visit_pdf_params : List String :=
  ["visit_info", "processed_items", "output_dir", "logo_path"]

/-- Positional arguments the synchronous fallback of finalize_report passes
to generate_visit_pdf (routes.py line 342). -/
def finalize_sync_pdf_args : List String :=
  ["visit_info", "final_items", "GENERATED_DIR"]

/-- Python call semantics: a call raises TypeError when it supplies fewer
positional arguments than the callee has required positional parameters. -/
def pyCallRaisesTypeError (requiredParams suppliedArgs : List String) : Bool :=
  suppliedArgs.length < requiredParams.length

/-- Response of the finalize endpoint as the client observes it
(routes.py finalize_report, lines 282 to 401). -/
inductive FinalizeResp
  | missingId
  | notFound
  | syncSuccess
  | acceptedJob
  | serverError
deriving DecidableEq, Repr

/-- Control flow of finalize_report: check the visit_id parameter, perform
the delete-on-read fetch, then either enqueue the background job (queue
available) or fall back to synchronous generation. The fallback calls
generate_visit_pdf with three positional arguments while the definition
requires four, so the call raises TypeError, which the enclosing
try/except turns into the 500 serverError response. -/
def finalize_report (s : StateStore) (id? : Option String) (queueAvailable : Bool) :
    FinalizeResp × StateStore :=
  match id? with
  | none => (FinalizeResp.missingId, s)
  | some id =>
      match get_report_state s id with
      | (none, s2) => (FinalizeResp.notFound, s2)
      | (some _, s2) =>
          if queueAvailable then (FinalizeResp.acceptedJob, s2)
          else if pyCallRaisesTypeError generate_visit_pdf_params finalize_sync_pdf_args then
            (FinalizeResp.serverError, s2)
          else (FinalizeResp.syncSuccess, s2)

/-- C4: the synchronous fallback is broken in the source snapshot. When the
record exists and no task-queue backend is reachable, finalize does not
return the two artifact locations: the generate_visit_pdf call at
routes.py line 342 supplies three positional arguments while the
definition at pdf_generator.py line 481 requires four (logo_path is
missing), so the fallback raises TypeError and the request ends in the
500 error response. -/
theorem finalize_fallback_type_error (s : StateStore) (id : String) (r : ReportRecord)
    (h : storeGet? s id = some r) :
    (finalize_report s (some id) false).1 = FinalizeResp.serverError
    ∧ pyCallRaisesTypeError generate_visit_pdf_params finalize_sync_pdf_args = true
    ∧ finalize_sync_pdf_args.length = 3
    ∧ generate_visit_pdf_params.length = 4 := by
  refine ⟨?_, rfl, rfl, rfl⟩
  simp [finalize_report, get_report_state, h, pyCallRaisesTypeError,
    generate_visit_pdf_params, finalize_sync_pdf_args]

/-- Witness for C4 at a concrete one-record store with the queue down. -/
theorem finalize_fallback_type_error_witness :
    (finalize_report [("report-1", default)] (some "report-1") false).1 =
      FinalizeResp.serverError :=
  (finalize_fallback_type_error [("report-1", default)] "report-1" default rfl).1

/-- Job status values written to the Redis status key (utils/tasks.py). -/
inductive JobStatus
  | pending
  | processing
  | done
  | failed
deriving DecidableEq, Repr

/-- One status record written under report:report_id by
generate_and_send_report in utils/tasks.py. Absent JSON fields are none. -/
structure StatusRecord where
  status : JobStatus
  pdf_url : Option String
  excel_url : Option String
  error : Option String
deriving DecidableEq, Repr

/-- Outcome of the create_report_workbook call inside the job: it can raise,
or return a pair, where the pair may be the null pair (None, None). -/
inductive ExcelOutcome
  | raisesE
  | returnsE (res : Option (String × String))
deriving DecidableEq, Repr

/-- Outcome the generate_visit_pdf body would have if the call at
tasks.py line 61 bound its arguments: raise, return a value that is not
a pair, or return (pdf_path, pdf_filename). The call never binds (see
generate_and_send_report below), so these outcomes are unreachable. -/
inductive PdfOutcome
  | raisesP
  | badShape
  | okP (path filename : String)
deriving DecidableEq, Repr

/-- The external URL built for a generated file (tasks.py lines 27 to 30). -/
def external_generated_url (base filename : String) : String :=
  base ++ "/site-visit/generated/" ++ filename

/-- Python call semantics with keyword arguments: the call raises TypeError
unless every supplied keyword names a parameter that is not already bound
positionally and every parameter ends up bound (the callees here have no
defaults). -/
def pyKwCallRaisesTypeError (params posArgs kwArgs : List String) : Bool :=
  !(decide (posArgs.length ≤ params.length)
    && kwArgs.all (fun k => params.contains k
        && !((params.take posArgs.length).contains k))
    && params.all (fun p => (params.take posArgs.length).contains p
        || kwArgs.contains p))

/-- Positional arguments of the generate_visit_pdf call inside the job
(utils/tasks.py line 61). -/
def task_pdf_pos_args : List String := ["visit_info", "final_items", "generated_dir"]

/-- Keyword arguments of the same call: upload_to_cloudinary, which is not
a parameter of generate_visit_pdf. -/
def task_pdf_kwargs : List String := ["upload_to_cloudinary"]

/-- generate_and_send_report in utils/tasks.py (lines 33 to 132): the
sequence of status records it writes. It writes processing first; an
excel failure writes failed with an error message and returns (lines 48
to 56). The pdf step at line 61 calls generate_visit_pdf with three
positional arguments plus the keyword upload_to_cloudinary, while the
definition at pdf_generator.py line 481 takes exactly (visit_info,
processed_items, output_dir, logo_path) with no defaults: the call
raises TypeError before the generator body runs, and the handler at
line 73 writes failed with an error message. The shape check and the
final done-or-failed status of lines 62 to 99 are kept in the model,
gated on the call binding its arguments, which this call never does. -/
def generate_and_send_report (base : String) (excel : ExcelOutcome) (pdf : PdfOutcome)
    (fexists : String → Bool) : List StatusRecord :=
  { status := JobStatus.processing, pdf_url := none, excel_url := none, error := none } ::
    match excel with
    | ExcelOutcome.raisesE =>
        [{ status := JobStatus.failed, pdf_url := none, excel_url := none,
           error := some "Excel generation failed" }]
    | ExcelOutcome.returnsE eres =>
        if pyKwCallRaisesTypeError generate_visit_pdf_params
            task_pdf_pos_args task_pdf_kwargs then
          [{ status := JobStatus.failed, pdf_url := none, excel_url := none,
             error := some "PDF generation failed" }]
        else
          match pdf with
          | PdfOutcome.raisesP =>
              [{ status := JobStatus.failed, pdf_url := none, excel_url := none,
                 error := some "PDF generation failed" }]
          | PdfOutcome.badShape =>
              [{ status := JobStatus.failed, pdf_url := none, excel_url := none,
                 error := some "pdf_generator returned unexpected result shape" }]
          | PdfOutcome.okP ppath pfilename =>
              let excel_url : Option String :=
                match eres with
                | some (epath, efilename) =>
                    if efilename != "" && epath != "" && fexists epath then
                      some (external_generated_url base efilename)
                    else none
                | none => none
              let pdf_url : Option String :=
                if pfilename != "" && ppath != "" && fexists ppath then
                  some (external_generated_url base pfilename)
                else none
              [{ status := if pdf_url.isSome || excel_url.isSome then JobStatus.done
                   else JobStatus.failed,
                 pdf_url := pdf_url, excel_url := excel_url, error := none }]

/-- C6: every status record the job writes in a terminal state carries
either both artifact locations (done) or an error message (failed). In
this snapshot the done branch of tasks.py lines 88 to 99 is unreachable:
the generate_visit_pdf call at line 61 supplies the keyword
upload_to_cloudinary, which the definition at pdf_generator.py line 481
does not accept, and leaves logo_path unbound, so the call always raises
TypeError and the handler at line 73 writes failed with an error
message; done is never written, and every terminal record is failed
carrying an error. -/
theorem job_terminal_record_spec (base : String) (excel : ExcelOutcome) (pdf : PdfOutcome)
    (fexists : String → Bool) (rec : StatusRecord)
    (h : rec ∈ generate_and_send_report base excel pdf fexists) :
    (rec.status = JobStatus.done → rec.pdf_url.isSome ∧ rec.excel_url.isSome)
    ∧ (rec.status = JobStatus.failed → rec.error.isSome) := by
  have hcall : pyKwCallRaisesTypeError generate_visit_pdf_params
      task_pdf_pos_args task_pdf_kwargs = true := by decide
  cases excel with
  | raisesE =>
      simp [generate_and_send_report] at h
      rcases h with h | h <;> subst h <;> simp
  | returnsE eres =>
      simp [generate_and_send_report, hcall] at h
      rcases h with h | h <;> subst h <;> simp

/-- Witness for C6 at the failed record of a concrete run of the job. -/
theorem job_terminal_record_spec_witness :
    (some "PDF generation failed" : Option String).isSome = true :=
  (job_terminal_record_spec "http://app" (ExcelOutcome.returnsE none)
      (PdfOutcome.okP "/gen/report.pdf" "report.pdf") (fun _ => true)
      { status := JobStatus.failed, pdf_url := none, excel_url := none,
        error := some "PDF generation failed" }
      (by decide)).2 rfl

/-- create_report_workbook in utils/excel_writer.py (lines 16 to 194), seen
through its result value and its effect on the set of files in the output
directory. xlsxwriter only creates the output .xlsx when workbook.close()
runs, so the model takes three outcome parameters: whether the Workbook
constructor succeeds (line 43), whether close() fails (lines 185 to 194),
and whether close() had already created the output file before failing.
The source performs no file removal on any path: the error handlers only
log and return (None, None). -/
def create_report_workbook (outputFiles : List String)
    (excelPath excelFilename : String) (workbookCreateOk : Bool)
    (closeFails : Bool) (closeCreatedFile : Bool) :
    (Option String × Option String) × List String :=
  if workbookCreateOk = false then ((none, none), outputFiles)
  else
    let files2 := if closeCreatedFile then excelPath :: outputFiles else outputFiles
    if closeFails then ((none, none), files2)
    else ((some excelPath, some excelFilename), files2)

/-- C7 counterexample: when workbook creation succeeds but close() fails
after having created the output file (for example the disk fills while
the zip archive is being written), the function does return the null
pair, yet the partially written out.xlsx is still in the output
directory: no cleanup is performed. -/
theorem excel_writer_partial_file_counterexample :
    (create_report_workbook ["old.xlsx"] "out.xlsx" "out" true true true).1 =
      (none, none)
    ∧ "out.xlsx" ∈ (create_report_workbook ["old.xlsx"] "out.xlsx" "out" true true true).2 := by
  exact ⟨rfl, by simp [create_report_workbook]⟩

/-- C7 corrected: create_report_workbook returns the null pair rather than
raising whenever the Workbook constructor or close() fails, and it never
removes any file; consequently a close() failure that happens after the
output file was created leaves that partial file in the output
directory. -/
theorem excel_writer_null_pair_spec (files : List String) (p f : String)
    (ok closeF closeC : Bool) :
    ((ok = false ∨ closeF = true) →
        (create_report_workbook files p f ok closeF closeC).1 = (none, none))
    ∧ files ⊆ (create_report_workbook files p f ok closeF closeC).2
    ∧ (ok = true → closeF = true → closeC = true →
        p ∈ (create_report_workbook files p f ok closeF closeC).2) := by
  cases ok <;> cases closeF <;> cases closeC <;>
    simp [create_report_workbook, List.subset_def] <;>
    exact fun hmem => Or.inr hmem

/-- Witness for the corrected C7 at a concrete failing close. -/
theorem excel_writer_null_pair_spec_witness :
    (create_report_workbook ["old.xlsx"] "wout.xlsx" "wout" true true false).1 =
      (none, none) :=
  (excel_writer_null_pair_spec ["old.xlsx"] "wout.xlsx" "wout" true true false).1
    (Or.inr rfl)

